import Mathlib

/-!
Shallow embedding of the STIMPL evaluator (`src/stimpl/runtime.py`).

The interpreter state is an immutable singly-linked chain of
(name, value, type) frames; `evaluate` walks the AST recursively,
threading the state left-to-right, and raises `InterpTypeError`,
`InterpSyntaxError` or `InterpMathError` on failure.  Python exceptions
are modelled with `Except`; the unbounded `while` loop of the source is
modelled with a fuel parameter (`OutOfFuel` is an artifact of the
embedding, not an error of the source program).

Python values are modelled by the inductive `Value`; Python floats are
idealised as exact rationals (every numeric computation appearing in the
claims is exact in IEEE double as well).  Python `None` (the value of an
empty `Sequence`) is `Value.pyNone`, distinct from the unit value `()`
returned by `Ren()`.
-/

namespace Stimpl

/-- Type tags of the language, from `stimpl.types` as used by the
evaluator.  Modelled from the spec: `stimpl/types.py` is not under
`src/`; the spec states the closed tag set
\x7bInteger, FloatingPoint, String, Boolean, Unit\x7d with structural
equality of tags. -/
inductive Ty where
  | Integer
  | FloatingPoint
  | String
  | Boolean
  | Unit
deriving DecidableEq

/-- Runtime values.  `int`, `float`, `str`, `bool` carry the payloads of
the corresponding Python values; `unit` is the Python tuple `()`
returned for `Ren()`; `pyNone` is Python `None`, the initial
`last_value` of the `Sequence`/`Program` loop. -/
inductive Value where
  | int (i : Int)
  | float (q : Rat)
  | str (s : String)
  | bool (b : Bool)
  | unit
  | pyNone
deriving DecidableEq

/-- Errors raised by the evaluator, from `stimpl.errors` as imported by
`runtime.py`: `InterpTypeError`, `InterpSyntaxError`, `InterpMathError`,
each carrying its message.  `OutOfFuel` is an artifact of the fuel-based
embedding of the unbounded source loop. -/
inductive Err where
  | InterpTypeError (msg : String)
  | InterpSyntaxError (msg : String)
  | InterpMathError (msg : String)
  | OutOfFuel
deriving DecidableEq

/-- AST nodes, from `stimpl.expression` as matched by `evaluate`.
Modelled from the spec and from the patterns in `runtime.py`:
`stimpl/expression.py` is not under `src/`.  `Assign` carries the target
`Variable`'s name directly (the source stores a `Variable` node and
reads `variable.variable_name`). -/
inductive Expr where
  | Ren
  | IntLiteral (literal : Int)
  | FloatingPointLiteral (literal : Rat)
  | StringLiteral (literal : String)
  | BooleanLiteral (literal : Bool)
  | Print (to_print : Expr)
  | Sequence (exprs : List Expr)
  | Program (exprs : List Expr)
  | Variable (variable_name : String)
  | Assign (variable_name : String) (value : Expr)
  | Add (left right : Expr)
  | Subtract (left right : Expr)
  | Multiply (left right : Expr)
  | Divide (left right : Expr)
  | And (left right : Expr)
  | Or (left right : Expr)
  | Not (expr : Expr)
  | If (condition true_branch false_branch : Expr)
  | Lt (left right : Expr)
  | Lte (left right : Expr)
  | Gt (left right : Expr)
  | Gte (left right : Expr)
  | Eq (left right : Expr)
  | Ne (left right : Expr)
  | While (condition body : Expr)

/-- The interpreter state: the chain of `State` nodes of `runtime.py`,
most recent frame first.  `EmptyState` is the empty list. -/
abbrev State := List (String × Value × Ty)

/-- Chain lookup, `State.get_value`: walk from the most recent frame,
return the first binding whose name matches, `none` if unbound. -/
def get_value (state : State) (variable_name : String) : Option (Value × Ty) :=
  match state with
  | [] => Option.none
  | (x, v, t) :: rest =>
    if x = variable_name then some (v, t) else get_value rest variable_name

/-- Non-destructive extension, `State.set_value`: a new frame in front of
the existing chain. -/
def set_value (state : State) (variable_name : String)
    (variable_value : Value) (variable_type : Ty) : State :=
  (variable_name, variable_value, variable_type) :: state

/-- Python truthiness of a value, as used by `while cond_val:` and
`if cond_val:`: zero numbers, the empty string, `False`, `()` and `None`
are falsy. -/
def truthy : Value → Bool
  | .int i => decide (i ≠ 0)
  | .float q => decide (q ≠ 0)
  | .str s => decide (s ≠ "")
  | .bool b => b
  | .unit => false
  | .pyNone => false

/-- Python `==` on the value universe: numbers (including `bool`, which
is an `int` subclass, so `False == 0` and `True == 1`) compare
numerically across kinds, strings compare as strings, `()` and `None`
are each equal only to themselves. -/
def pyEq : Value → Value → Bool
  | .int a, .int b => a == b
  | .float a, .float b => a == b
  | .str a, .str b => a == b
  | .bool a, .bool b => a == b
  | .int a, .float b => (a : Rat) == b
  | .float a, .int b => a == (b : Rat)
  | .int a, .bool b => a == (if b then 1 else 0)
  | .bool a, .int b => (if a then (1 : Int) else 0) == b
  | .float a, .bool b => a == (if b then (1 : Rat) else 0)
  | .bool a, .float b => (if a then (1 : Rat) else 0) == b
  | .unit, .unit => true
  | .pyNone, .pyNone => true
  | _, _ => false

/-- Python `<` on operands of one comparable kind (the evaluator only
applies it after checking that both type tags agree, so the mixed cases
of the catch-all are unreachable).  Booleans order as `False < True`. -/
def pyLt : Value → Value → Bool
  | .int a, .int b => decide (a < b)
  | .float a, .float b => decide (a < b)
  | .str a, .str b => decide (a < b)
  | .bool a, .bool b => !a && b
  | _, _ => false

/-- Python `<=` on operands of one comparable kind; for these total
orders it is `<` or `==`. -/
def pyLe (a b : Value) : Bool := pyLt a b || pyEq a b

/-- Python `>`: the reverse of `<` for these totally ordered kinds. -/
def pyGt (a b : Value) : Bool := pyLt b a

/-- Python `>=`: the reverse of `<=` for these totally ordered kinds. -/
def pyGe (a b : Value) : Bool := pyLe b a

/-- Python `+` on tag-matched operands of `Add`: numeric addition or
string concatenation.  The catch-all is unreachable: the evaluator only
adds values whose (equal) type tags are Integer, FloatingPoint or
String, and evaluator-produced values match their tags. -/
def pyAdd : Value → Value → Value
  | .int a, .int b => .int (a + b)
  | .float a, .float b => .float (a + b)
  | .str a, .str b => .str (a ++ b)
  | _, _ => .pyNone

/-- Python `-` on tag-matched numeric operands; catch-all unreachable as
in `pyAdd`. -/
def pySub : Value → Value → Value
  | .int a, .int b => .int (a - b)
  | .float a, .float b => .float (a - b)
  | _, _ => .pyNone

/-- Python `*` on tag-matched numeric operands; catch-all unreachable as
in `pyAdd`. -/
def pyMul : Value → Value → Value
  | .int a, .int b => .int (a * b)
  | .float a, .float b => .float (a * b)
  | _, _ => .pyNone

/-- Python `//` on Integer-tagged operands: floor division, rounding
toward negative infinity (`Int.fdiv`), exactly as Python's integer `//`.
Catch-all unreachable as in `pyAdd`. -/
def pyFloorDiv : Value → Value → Value
  | .int a, .int b => .int (Int.fdiv a b)
  | _, _ => .pyNone

/-- Python `/` on FloatingPoint-tagged operands, idealised as exact
rational division.  Catch-all unreachable as in `pyAdd`. -/
def pyTrueDiv : Value → Value → Value
  | .float a, .float b => .float (a / b)
  | _, _ => .pyNone

/-- Python `and`: returns the left operand if it is falsy, otherwise the
right operand. -/
def pyAnd (a b : Value) : Value := if truthy a then b else a

/-- Python `or`: returns the left operand if it is truthy, otherwise the
right operand. -/
def pyOr (a b : Value) : Value := if truthy a then a else b

/-- Textual form of a type tag inside error messages.  Modelled from the
spec: the tag names are \x7bInteger, FloatingPoint, String, Boolean,
Unit\x7d; the exact rendering of `stimpl/types.py` instances in f-strings
is not under `src/`. -/
def tyStr : Ty → String
  | .Integer => "Integer"
  | .FloatingPoint => "FloatingPoint"
  | .String => "String"
  | .Boolean => "Boolean"
  | .Unit => "Unit"

/-- Pending work of the evaluator: either an expression to evaluate, the
remaining list of a `Sequence`/`Program` with the accumulated last
result, or the iteration of a `While` loop (condition, body, the value
the condition last evaluated to, current state).  Bundling the three
shapes into one type lets the whole evaluator recurse structurally on
fuel, so that it computes by kernel reduction. -/
inductive Call where
  | expr (expression : Expr) (state : State)
  | seq (exprs : List Expr) (acc : Value × Ty × State)
  | loop (condition body : Expr) (cond_val : Value) (state : State)

/-- The evaluator, translated case-by-case from `evaluate` in
`runtime.py`.  A unit of fuel is consumed by every recursive step; the
source's unbounded recursion corresponds to sufficiently large fuel.

Points translated with care:
* `Sequence`/`Program` start their loop from `(None, Unit(), state)` and
  return the accumulator unchanged when the list is exhausted;
* `Assign` evaluates the right-hand side first, then looks the name up
  in the resulting state and raises only when a previous type exists and
  differs;
* `Divide` checks `right_val == 0 or right_val == 0.0` (Python `==`,
  which also holds for `False`) after the tag-equality check and before
  the match on the numeric tag;
* `While` checks `isinstance(cond_type, Boolean)` once, before the
  `while cond_val:` loop; the loop re-evaluates the condition each
  iteration but never re-checks its type, using only truthiness of the
  value;
* the final `raise` of the `Lt`/`Lte`/`Gt`/`Gte` cases is unreachable
  (the isinstance tests cover all five tags), so those matches are
  written exhaustively;
* `Print` writes to stdout and returns the operand's triple unchanged;
  the embedding drops the output and keeps the triple. -/
def evalC : Nat → Call → Except Err (Value × Ty × State)
  | _, .seq [] acc => .ok acc
  | 0, _ => .error .OutOfFuel
  | n + 1, .expr expression state =>
    match expression with
    | .Ren => .ok (.unit, .Unit, state)
    | .IntLiteral l => .ok (.int l, .Integer, state)
    | .FloatingPointLiteral l => .ok (.float l, .FloatingPoint, state)
    | .StringLiteral l => .ok (.str l, .String, state)
    | .BooleanLiteral l => .ok (.bool l, .Boolean, state)
    | .Print to_print => evalC n (.expr to_print state)
    | .Sequence exprs => evalC n (.seq exprs (.pyNone, .Unit, state))
    | .Program exprs => evalC n (.seq exprs (.pyNone, .Unit, state))
    | .Variable x =>
      match get_value state x with
      | Option.none =>
        .error (.InterpSyntaxError ("Cannot read from " ++ x ++ " before assignment."))
      | some (v, t) => .ok (v, t, state)
    | .Assign x value => do
      let (value_result, value_type, new_state) ← evalC n (.expr value state)
      match get_value new_state x with
      | some (_, var_type) =>
        if var_type ≠ value_type then
          .error (.InterpTypeError ("Mismatched types for Assignment: Cannot assign "
            ++ tyStr value_type ++ " to " ++ tyStr var_type))
        else
          .ok (value_result, value_type, set_value new_state x value_result value_type)
      | Option.none =>
        .ok (value_result, value_type, set_value new_state x value_result value_type)
    | .Add left right => do
      let (left_val, left_type, s₁) ← evalC n (.expr left state)
      let (right_val, right_type, s₂) ← evalC n (.expr right s₁)
      if left_type ≠ right_type then
        .error (.InterpTypeError ("Cannot add " ++ tyStr left_type ++ " to " ++ tyStr right_type))
      else
        match left_type with
        | .Integer | .FloatingPoint | .String =>
          .ok (pyAdd left_val right_val, left_type, s₂)
        | _ => .error (.InterpTypeError ("Cannot add " ++ tyStr left_type))
    | .Subtract left right => do
      let (left_val, left_type, s₁) ← evalC n (.expr left state)
      let (right_val, right_type, s₂) ← evalC n (.expr right s₁)
      if left_type ≠ right_type then
        .error (.InterpTypeError ("Cannot subtract " ++ tyStr left_type ++ " and " ++ tyStr right_type))
      else
        match left_type with
        | .Integer | .FloatingPoint =>
          .ok (pySub left_val right_val, left_type, s₂)
        | _ => .error (.InterpTypeError ("Cannot subtract " ++ tyStr left_type))
    | .Multiply left right => do
      let (left_val, left_type, s₁) ← evalC n (.expr left state)
      let (right_val, right_type, s₂) ← evalC n (.expr right s₁)
      if left_type ≠ right_type then
        .error (.InterpTypeError ("Cannot multiply " ++ tyStr left_type ++ " and " ++ tyStr right_type))
      else
        match left_type with
        | .Integer | .FloatingPoint =>
          .ok (pyMul left_val right_val, left_type, s₂)
        | _ => .error (.InterpTypeError ("Cannot multiply " ++ tyStr left_type))
    | .Divide left right => do
      let (left_val, left_type, s₁) ← evalC n (.expr left state)
      let (right_val, right_type, s₂) ← evalC n (.expr right s₁)
      if left_type ≠ right_type then
        .error (.InterpTypeError ("Cannot divide " ++ tyStr left_type ++ " and " ++ tyStr right_type))
      else if pyEq right_val (.int 0) || pyEq right_val (.float 0) then
        .error (.InterpMathError "Division by zero")
      else
        match left_type with
        | .Integer => .ok (pyFloorDiv left_val right_val, .Integer, s₂)
        | .FloatingPoint => .ok (pyTrueDiv left_val right_val, .FloatingPoint, s₂)
        | _ => .error (.InterpTypeError ("Cannot divide " ++ tyStr left_type))
    | .And left right => do
      let (left_val, left_type, s₁) ← evalC n (.expr left state)
      let (right_val, right_type, s₂) ← evalC n (.expr right s₁)
      if left_type ≠ right_type ∨ left_type ≠ Ty.Boolean then
        .error (.InterpTypeError "Cannot perform And on non-boolean")
      else
        .ok (pyAnd left_val right_val, .Boolean, s₂)
    | .Or left right => do
      let (left_val, left_type, s₁) ← evalC n (.expr left state)
      let (right_val, right_type, s₂) ← evalC n (.expr right s₁)
      if left_type ≠ right_type ∨ left_type ≠ Ty.Boolean then
        .error (.InterpTypeError "Cannot perform Or on non-boolean")
      else
        .ok (pyOr left_val right_val, .Boolean, s₂)
    | .Not expr => do
      let (val, typ, s₁) ← evalC n (.expr expr state)
      if typ ≠ Ty.Boolean then
        .error (.InterpTypeError "Cannot perform Not on non-boolean")
      else
        .ok (.bool (!truthy val), .Boolean, s₁)
    | .If condition true_branch false_branch => do
      let (cond_val, cond_type, s₁) ← evalC n (.expr condition state)
      if cond_type ≠ Ty.Boolean then
        .error (.InterpTypeError "If condition must be Boolean")
      else if truthy cond_val then
        evalC n (.expr true_branch s₁)
      else
        evalC n (.expr false_branch s₁)
    | .Lt left right => do
      let (left_val, left_type, s₁) ← evalC n (.expr left state)
      let (right_val, right_type, s₂) ← evalC n (.expr right s₁)
      if left_type ≠ right_type then
        .error (.InterpTypeError ("Cannot compare " ++ tyStr left_type ++ " and " ++ tyStr right_type))
      else
        match left_type with
        | .Integer | .FloatingPoint | .String | .Boolean =>
          .ok (.bool (pyLt left_val right_val), .Boolean, s₂)
        | .Unit => .ok (.bool false, .Boolean, s₂)
    | .Lte left right => do
      let (left_val, left_type, s₁) ← evalC n (.expr left state)
      let (right_val, right_type, s₂) ← evalC n (.expr right s₁)
      if left_type ≠ right_type then
        .error (.InterpTypeError ("Cannot compare " ++ tyStr left_type ++ " and " ++ tyStr right_type))
      else
        match left_type with
        | .Integer | .FloatingPoint | .String | .Boolean =>
          .ok (.bool (pyLe left_val right_val), .Boolean, s₂)
        | .Unit => .ok (.bool true, .Boolean, s₂)
    | .Gt left right => do
      let (left_val, left_type, s₁) ← evalC n (.expr left state)
      let (right_val, right_type, s₂) ← evalC n (.expr right s₁)
      if left_type ≠ right_type then
        .error (.InterpTypeError ("Cannot compare " ++ tyStr left_type ++ " and " ++ tyStr right_type))
      else
        match left_type with
        | .Integer | .FloatingPoint | .String | .Boolean =>
          .ok (.bool (pyGt left_val right_val), .Boolean, s₂)
        | .Unit => .ok (.bool false, .Boolean, s₂)
    | .Gte left right => do
      let (left_val, left_type, s₁) ← evalC n (.expr left state)
      let (right_val, right_type, s₂) ← evalC n (.expr right s₁)
      if left_type ≠ right_type then
        .error (.InterpTypeError ("Cannot compare " ++ tyStr left_type ++ " and " ++ tyStr right_type))
      else
        match left_type with
        | .Integer | .FloatingPoint | .String | .Boolean =>
          .ok (.bool (pyGe left_val right_val), .Boolean, s₂)
        | .Unit => .ok (.bool true, .Boolean, s₂)
    | .Eq left right => do
      let (left_val, left_type, s₁) ← evalC n (.expr left state)
      let (right_val, right_type, s₂) ← evalC n (.expr right s₁)
      if left_type ≠ right_type then
        .error (.InterpTypeError ("Cannot compare " ++ tyStr left_type ++ " and " ++ tyStr right_type))
      else
        .ok (.bool (pyEq left_val right_val), .Boolean, s₂)
    | .Ne left right => do
      let (left_val, left_type, s₁) ← evalC n (.expr left state)
      let (right_val, right_type, s₂) ← evalC n (.expr right s₁)
      if left_type ≠ right_type then
        .error (.InterpTypeError ("Cannot compare " ++ tyStr left_type ++ " and " ++ tyStr right_type))
      else
        .ok (.bool (!pyEq left_val right_val), .Boolean, s₂)
    | .While condition body => do
      let (cond_val, cond_type, s₁) ← evalC n (.expr condition state)
      if cond_type ≠ Ty.Boolean then
        .error (.InterpTypeError "While condition must be Boolean")
      else
        evalC n (.loop condition body cond_val s₁)
  | n + 1, .seq (e :: es) acc => do
    let r ← evalC n (.expr e acc.2.2)
    evalC n (.seq es r)
  | n + 1, .loop condition body cond_val state =>
    if truthy cond_val then do
      let (_, _, s₁) ← evalC n (.expr body state)
      let (cond_val₂, _, s₂) ← evalC n (.expr condition s₁)
      evalC n (.loop condition body cond_val₂ s₂)
    else
      .ok (.bool false, .Boolean, state)

/-- Evaluation of an expression: `evaluate(expression, state)` of the
source, at the given fuel. -/
def evaluate (fuel : Nat) (expression : Expr) (state : State) :
    Except Err (Value × Ty × State) :=
  evalC fuel (.expr expression state)

/-- Environment threading of a `Sequence`/`Program` prefix: evaluate the
expressions in order, keeping only the state each produces, with the
same fuel schedule as the evaluator's own loop (one unit per element).
This is the spec's notion of "threading the environment from one
sub-expression to the next". -/
def threadStates : Nat → List Expr → State → Except Err State
  | _, [], state => .ok state
  | 0, _ :: _, _ => .error .OutOfFuel
  | n + 1, e :: es, state => do
    let (_, _, s₁) ← evalC n (.expr e state)
    threadStates n es s₁

/-- Type stability of a state chain: every binding of a name carries the
same type tag as the next (older) binding of that name, hence all
bindings of one name in the chain agree on the tag. -/
def typeConsistent : State → Bool
  | [] => true
  | (x, _, t) :: rest =>
    (match get_value rest x with
     | some (_, t₀) => decide (t = t₀)
     | Option.none => true) && typeConsistent rest

/-- The state a pending `Call` evaluates in (for the preservation
invariant): the current state of an expression or loop call, the
accumulator's state for a sequence call. -/
def callStateOk : Call → Bool
  | .expr _ state => typeConsistent state
  | .seq _ acc => typeConsistent acc.2.2
  | .loop _ _ _ state => typeConsistent state

theorem ok_bind {α β : Type} (a : α) (f : α → Except Err β) :
    (Except.ok a >>= f) = f a := rfl

theorem error_bind {α β : Type} (e : Err) (f : α → Except Err β) :
    ((Except.error e : Except Err α) >>= f) = .error e := rfl

theorem seq_nil (n : Nat) (acc : Value × Ty × State) :
    evalC n (.seq [] acc) = .ok acc := by
  cases n <;> rfl

theorem eval_Variable_unfold (n : Nat) (x : String) (s : State) :
    evaluate (n + 1) (.Variable x) s
      = (match get_value s x with
         | Option.none =>
           .error (.InterpSyntaxError ("Cannot read from " ++ x ++ " before assignment."))
         | some (v, t) => .ok (v, t, s)) := rfl

theorem eval_Divide_unfold (n : Nat) (l r : Expr) (s : State) :
    evaluate (n + 1) (.Divide l r) s = (do
      let (left_val, left_type, s₁) ← evalC n (.expr l s)
      let (right_val, right_type, s₂) ← evalC n (.expr r s₁)
      if left_type ≠ right_type then
        .error (.InterpTypeError ("Cannot divide " ++ tyStr left_type ++ " and " ++ tyStr right_type))
      else if pyEq right_val (.int 0) || pyEq right_val (.float 0) then
        .error (.InterpMathError "Division by zero")
      else
        match left_type with
        | .Integer => .ok (pyFloorDiv left_val right_val, .Integer, s₂)
        | .FloatingPoint => .ok (pyTrueDiv left_val right_val, .FloatingPoint, s₂)
        | _ => .error (.InterpTypeError ("Cannot divide " ++ tyStr left_type))) := rfl

theorem eval_And_unfold (n : Nat) (l r : Expr) (s : State) :
    evaluate (n + 1) (.And l r) s = (do
      let (left_val, left_type, s₁) ← evalC n (.expr l s)
      let (right_val, right_type, s₂) ← evalC n (.expr r s₁)
      if left_type ≠ right_type ∨ left_type ≠ Ty.Boolean then
        .error (.InterpTypeError "Cannot perform And on non-boolean")
      else
        .ok (pyAnd left_val right_val, .Boolean, s₂)) := rfl

theorem eval_Or_unfold (n : Nat) (l r : Expr) (s : State) :
    evaluate (n + 1) (.Or l r) s = (do
      let (left_val, left_type, s₁) ← evalC n (.expr l s)
      let (right_val, right_type, s₂) ← evalC n (.expr r s₁)
      if left_type ≠ right_type ∨ left_type ≠ Ty.Boolean then
        .error (.InterpTypeError "Cannot perform Or on non-boolean")
      else
        .ok (pyOr left_val right_val, .Boolean, s₂)) := rfl

theorem eval_Assign_unfold (n : Nat) (x : String) (e : Expr) (s : State) :
    evaluate (n + 1) (.Assign x e) s = (do
      let (value_result, value_type, new_state) ← evalC n (.expr e s)
      match get_value new_state x with
      | some (_, var_type) =>
        if var_type ≠ value_type then
          .error (.InterpTypeError ("Mismatched types for Assignment: Cannot assign "
            ++ tyStr value_type ++ " to " ++ tyStr var_type))
        else
          .ok (value_result, value_type, set_value new_state x value_result value_type)
      | Option.none =>
        .ok (value_result, value_type, set_value new_state x value_result value_type)) := rfl

theorem eval_While_unfold (n : Nat) (c b : Expr) (s : State) :
    evaluate (n + 1) (.While c b) s = (do
      let (cond_val, cond_type, s₁) ← evalC n (.expr c s)
      if cond_type ≠ Ty.Boolean then
        .error (.InterpTypeError "While condition must be Boolean")
      else
        evalC n (.loop c b cond_val s₁)) := rfl

theorem eval_Lt_unfold (n : Nat) (l r : Expr) (s : State) :
    evaluate (n + 1) (.Lt l r) s = (do
      let (left_val, left_type, s₁) ← evalC n (.expr l s)
      let (right_val, right_type, s₂) ← evalC n (.expr r s₁)
      if left_type ≠ right_type then
        .error (.InterpTypeError ("Cannot compare " ++ tyStr left_type ++ " and " ++ tyStr right_type))
      else
        match left_type with
        | .Integer | .FloatingPoint | .String | .Boolean =>
          .ok (.bool (pyLt left_val right_val), .Boolean, s₂)
        | .Unit => .ok (.bool false, .Boolean, s₂)) := rfl

theorem eval_Lte_unfold (n : Nat) (l r : Expr) (s : State) :
    evaluate (n + 1) (.Lte l r) s = (do
      let (left_val, left_type, s₁) ← evalC n (.expr l s)
      let (right_val, right_type, s₂) ← evalC n (.expr r s₁)
      if left_type ≠ right_type then
        .error (.InterpTypeError ("Cannot compare " ++ tyStr left_type ++ " and " ++ tyStr right_type))
      else
        match left_type with
        | .Integer | .FloatingPoint | .String | .Boolean =>
          .ok (.bool (pyLe left_val right_val), .Boolean, s₂)
        | .Unit => .ok (.bool true, .Boolean, s₂)) := rfl

theorem eval_Gt_unfold (n : Nat) (l r : Expr) (s : State) :
    evaluate (n + 1) (.Gt l r) s = (do
      let (left_val, left_type, s₁) ← evalC n (.expr l s)
      let (right_val, right_type, s₂) ← evalC n (.expr r s₁)
      if left_type ≠ right_type then
        .error (.InterpTypeError ("Cannot compare " ++ tyStr left_type ++ " and " ++ tyStr right_type))
      else
        match left_type with
        | .Integer | .FloatingPoint | .String | .Boolean =>
          .ok (.bool (pyGt left_val right_val), .Boolean, s₂)
        | .Unit => .ok (.bool false, .Boolean, s₂)) := rfl

theorem eval_Gte_unfold (n : Nat) (l r : Expr) (s : State) :
    evaluate (n + 1) (.Gte l r) s = (do
      let (left_val, left_type, s₁) ← evalC n (.expr l s)
      let (right_val, right_type, s₂) ← evalC n (.expr r s₁)
      if left_type ≠ right_type then
        .error (.InterpTypeError ("Cannot compare " ++ tyStr left_type ++ " and " ++ tyStr right_type))
      else
        match left_type with
        | .Integer | .FloatingPoint | .String | .Boolean =>
          .ok (.bool (pyGe left_val right_val), .Boolean, s₂)
        | .Unit => .ok (.bool true, .Boolean, s₂)) := rfl

/-- Claim C9: reading a variable with no binding anywhere in the chain
fails with an `InterpSyntaxError` whose message names the identifier;
reading a bound variable returns its stored value and type with the
state unchanged. -/
theorem claim_C9 :
    (∀ (n : Nat) (x : String) (s : State), get_value s x = Option.none →
      evaluate (n + 1) (.Variable x) s
        = .error (.InterpSyntaxError ("Cannot read from " ++ x ++ " before assignment.")))
    ∧ (∀ (n : Nat) (x : String) (s : State) (v : Value) (t : Ty),
      get_value s x = some (v, t) →
      evaluate (n + 1) (.Variable x) s = .ok (v, t, s)) := by
  constructor
  · intro n x s h
    rw [eval_Variable_unfold, h]
  · intro n x s v t h
    rw [eval_Variable_unfold, h]

/-- Claim C9 witness: reading unbound `foo` in the empty state fails
with the syntax error naming `foo`; reading bound `a` returns its
binding unchanged. -/
theorem claim_C9_witness :
    evaluate 3 (.Variable "foo") []
      = .error (.InterpSyntaxError "Cannot read from foo before assignment.")
    ∧ evaluate 3 (.Variable "a") [("a", .int 1, .Integer)]
      = .ok (.int 1, .Integer, [("a", .int 1, .Integer)]) :=
  ⟨claim_C9.1 2 "foo" [] rfl, claim_C9.2 2 "a" [("a", .int 1, .Integer)] (.int 1) .Integer rfl⟩

/-- Claim C8: on two Unit-typed operands the relational operators follow
the fixed Unit ordering policy: `Lt` is false, `Lte` is true, `Gt` is
false, `Gte` is true, each Boolean-typed and without error. -/
theorem claim_C8 :
    ∀ (n : Nat) (l r : Expr) (s : State) (u : Value) (s₁ : State) (u' : Value) (s₂ : State),
      evaluate n l s = .ok (u, .Unit, s₁) →
      evaluate n r s₁ = .ok (u', .Unit, s₂) →
      evaluate (n + 1) (.Lt l r) s = .ok (.bool false, .Boolean, s₂)
      ∧ evaluate (n + 1) (.Lte l r) s = .ok (.bool true, .Boolean, s₂)
      ∧ evaluate (n + 1) (.Gt l r) s = .ok (.bool false, .Boolean, s₂)
      ∧ evaluate (n + 1) (.Gte l r) s = .ok (.bool true, .Boolean, s₂) := by
  intro n l r s u s₁ u' s₂ h₁ h₂
  have h₁' : evalC n (.expr l s) = .ok (u, .Unit, s₁) := h₁
  have h₂' : evalC n (.expr r s₁) = .ok (u', .Unit, s₂) := h₂
  refine ⟨?_, ?_, ?_, ?_⟩
  · rw [eval_Lt_unfold]; simp [ok_bind, h₁', h₂']
  · rw [eval_Lte_unfold]; simp [ok_bind, h₁', h₂']
  · rw [eval_Gt_unfold]; simp [ok_bind, h₁', h₂']
  · rw [eval_Gte_unfold]; simp [ok_bind, h₁', h₂']

/-- Claim C8 witness: comparing `Ren()` (the unit value) with itself
follows the fixed policy. -/
theorem claim_C8_witness :
    evaluate 2 (.Lt .Ren .Ren) [] = .ok (.bool false, .Boolean, [])
    ∧ evaluate 2 (.Lte .Ren .Ren) [] = .ok (.bool true, .Boolean, [])
    ∧ evaluate 2 (.Gt .Ren .Ren) [] = .ok (.bool false, .Boolean, [])
    ∧ evaluate 2 (.Gte .Ren .Ren) [] = .ok (.bool true, .Boolean, []) :=
  claim_C8 1 .Ren .Ren [] .unit [] .unit [] rfl rfl

/-- Claim C1 counterexample: the claim states integer division truncates
toward zero, so `(-7) / 2` would be `-3`; the evaluator uses Python's
floor division and yields `-4`. -/
theorem claim_C1_counterexample :
    evaluate 3 (.Divide (.IntLiteral (-7)) (.IntLiteral 2)) []
      = .ok (.int (-4), .Integer, [])
    ∧ (-4 : Int) ≠ -3 :=
  ⟨rfl, by decide⟩

/-- Claim C1 (amended): for Integer operands with non-zero divisor,
`Divide` yields the floor quotient (Python `//`, rounding toward
negative infinity, so `7 / 2 = 3` but `(-7) / 2 = -4`) with tag Integer;
for FloatingPoint operands with non-zero divisor it yields the exact
quotient (`7.0 / 2.0 = 3.5`) with tag FloatingPoint. -/
theorem claim_C1 :
    (∀ (n : Nat) (l r : Expr) (s : State) (a b : Int) (s₁ s₂ : State),
      evaluate n l s = .ok (.int a, .Integer, s₁) →
      evaluate n r s₁ = .ok (.int b, .Integer, s₂) →
      b ≠ 0 →
      evaluate (n + 1) (.Divide l r) s = .ok (.int (Int.fdiv a b), .Integer, s₂))
    ∧ (∀ (n : Nat) (l r : Expr) (s : State) (a b : Rat) (s₁ s₂ : State),
      evaluate n l s = .ok (.float a, .FloatingPoint, s₁) →
      evaluate n r s₁ = .ok (.float b, .FloatingPoint, s₂) →
      b ≠ 0 →
      evaluate (n + 1) (.Divide l r) s = .ok (.float (a / b), .FloatingPoint, s₂)) := by
  constructor
  · intro n l r s a b s₁ s₂ h₁ h₂ hb
    have h₁' : evalC n (.expr l s) = .ok (.int a, .Integer, s₁) := h₁
    have h₂' : evalC n (.expr r s₁) = .ok (.int b, .Integer, s₂) := h₂
    rw [eval_Divide_unfold]
    simp [ok_bind, h₁', h₂', pyEq, pyFloorDiv, hb]
  · intro n l r s a b s₁ s₂ h₁ h₂ hb
    have h₁' : evalC n (.expr l s) = .ok (.float a, .FloatingPoint, s₁) := h₁
    have h₂' : evalC n (.expr r s₁) = .ok (.float b, .FloatingPoint, s₂) := h₂
    rw [eval_Divide_unfold]
    simp [ok_bind, h₁', h₂', pyEq, pyTrueDiv, hb]

/-- Claim C1 witness: `7 / 2` on Integers gives `3`; `7.0 / 2.0` on
FloatingPoints gives `3.5`. -/
theorem claim_C1_witness :
    ((2 : Int) ≠ 0
      ∧ evaluate 2 (.Divide (.IntLiteral 7) (.IntLiteral 2)) [] = .ok (.int 3, .Integer, []))
    ∧ ((2 : Rat) ≠ 0
      ∧ evaluate 2 (.Divide (.FloatingPointLiteral 7) (.FloatingPointLiteral 2)) []
          = .ok (.float 3.5, .FloatingPoint, [])) :=
  ⟨⟨by decide, claim_C1.1 1 (.IntLiteral 7) (.IntLiteral 2) [] 7 2 [] [] rfl rfl (by decide)⟩,
   ⟨by norm_num, by
      rw [show (3.5 : Rat) = 7 / 2 by norm_num]
      exact claim_C1.2 1 (.FloatingPointLiteral 7) (.FloatingPointLiteral 2) [] 7 2 [] []
        rfl rfl (by norm_num)⟩⟩

/-- Claim C3 counterexample: the claim states that two same-typed
non-numeric operands always give a type error and never a math error;
but `Divide(true, false)` on Booleans raises the math error, because the
zero check `right_val == 0` runs before the numeric-tag match and Python
`False == 0` holds. -/
theorem claim_C3_counterexample :
    evaluate 3 (.Divide (.BooleanLiteral true) (.BooleanLiteral false)) []
      = .error (.InterpMathError "Division by zero") := rfl

/-- Claim C3 (amended): in `Divide` the divisor-zero check runs after
the operand-type-equality check but before the numeric-tag check, and it
uses Python equality with 0, under which `False` counts as zero.  So:
mismatched operand types give the type error; equal types whose right
value equals Python `0` (including Boolean `false`) give the math error;
equal non-numeric types whose right value is not Python-zero give the
type error. -/
theorem claim_C3 :
    ∀ (n : Nat) (l r : Expr) (s : State) (lv : Value) (lt : Ty) (s₁ : State)
      (rv : Value) (rt : Ty) (s₂ : State),
      evaluate n l s = .ok (lv, lt, s₁) →
      evaluate n r s₁ = .ok (rv, rt, s₂) →
      ((lt ≠ rt →
        evaluate (n + 1) (.Divide l r) s
          = .error (.InterpTypeError ("Cannot divide " ++ tyStr lt ++ " and " ++ tyStr rt)))
      ∧ (lt = rt → (pyEq rv (.int 0) || pyEq rv (.float 0)) = true →
        evaluate (n + 1) (.Divide l r) s = .error (.InterpMathError "Division by zero"))
      ∧ (lt = rt → (pyEq rv (.int 0) || pyEq rv (.float 0)) = false →
        lt ≠ .Integer → lt ≠ .FloatingPoint →
        evaluate (n + 1) (.Divide l r) s
          = .error (.InterpTypeError ("Cannot divide " ++ tyStr lt)))) := by
  intro n l r s lv lt s₁ rv rt s₂ h₁ h₂
  have h₁' : evalC n (.expr l s) = .ok (lv, lt, s₁) := h₁
  have h₂' : evalC n (.expr r s₁) = .ok (rv, rt, s₂) := h₂
  refine ⟨?_, ?_, ?_⟩
  · intro hne
    rw [eval_Divide_unfold]
    simp [ok_bind, h₁', h₂', hne]
  · intro he hz
    subst he
    rw [eval_Divide_unfold]
    have hz' : pyEq rv (.int 0) = true ∨ pyEq rv (.float 0) = true := by
      simpa using hz
    rcases hz' with hz1 | hz2
    · simp [ok_bind, h₁', h₂', hz1]
    · simp [ok_bind, h₁', h₂', hz2]
  · intro he hz hInt hFloat
    subst he
    rw [eval_Divide_unfold]
    obtain ⟨hz1, hz2⟩ : pyEq rv (.int 0) = false ∧ pyEq rv (.float 0) = false := by
      simpa using hz
    cases lt with
    | Integer => exact absurd rfl hInt
    | FloatingPoint => exact absurd rfl hFloat
    | String => simp [ok_bind, h₁', h₂', hz1, hz2]
    | Boolean => simp [ok_bind, h₁', h₂', hz1, hz2]
    | Unit => simp [ok_bind, h₁', h₂', hz1, hz2]

/-- Claim C3 witness: dividing two Strings (right value not
Python-zero) fails with the type error, after passing the zero check. -/
theorem claim_C3_witness :
    evaluate 2 (.Divide (.StringLiteral "ab") (.StringLiteral "cd")) []
      = .error (.InterpTypeError "Cannot divide String") :=
  (claim_C3 1 (.StringLiteral "ab") (.StringLiteral "cd") [] (.str "ab") .String []
    (.str "cd") .String [] rfl rfl).2.2 rfl rfl (by decide) (by decide)

/-- Claim C4: `And`/`Or` do not short-circuit — the right operand is
evaluated (in the left's resulting state) even when the left operand's
value alone determines the result, so an error raised by the right
operand propagates; in particular `And(false, 1/0)` and `Or(true, 1/0)`
fail with the division-by-zero math error. -/
theorem claim_C4 :
    (∀ (n : Nat) (l r : Expr) (s s₁ : State) (e : Err),
      evaluate n l s = .ok (.bool false, .Boolean, s₁) →
      evaluate n r s₁ = .error e →
      evaluate (n + 1) (.And l r) s = .error e)
    ∧ (∀ (n : Nat) (l r : Expr) (s s₁ : State) (e : Err),
      evaluate n l s = .ok (.bool true, .Boolean, s₁) →
      evaluate n r s₁ = .error e →
      evaluate (n + 1) (.Or l r) s = .error e)
    ∧ evaluate 4 (.And (.BooleanLiteral false) (.Divide (.IntLiteral 1) (.IntLiteral 0))) []
        = .error (.InterpMathError "Division by zero")
    ∧ evaluate 4 (.Or (.BooleanLiteral true) (.Divide (.IntLiteral 1) (.IntLiteral 0))) []
        = .error (.InterpMathError "Division by zero") := by
  refine ⟨?_, ?_, rfl, rfl⟩
  · intro n l r s s₁ e h₁ h₂
    have h₁' : evalC n (.expr l s) = .ok (.bool false, .Boolean, s₁) := h₁
    have h₂' : evalC n (.expr r s₁) = .error e := h₂
    rw [eval_And_unfold]
    simp [ok_bind, error_bind, h₁', h₂']
  · intro n l r s s₁ e h₁ h₂
    have h₁' : evalC n (.expr l s) = .ok (.bool true, .Boolean, s₁) := h₁
    have h₂' : evalC n (.expr r s₁) = .error e := h₂
    rw [eval_Or_unfold]
    simp [ok_bind, error_bind, h₁', h₂']

/-- Claim C4 witness: `And(false, read-of-unbound-z)` propagates the
right operand's error although the left operand is already `false`, and
dually for `Or(true, ...)`. -/
theorem claim_C4_witness :
    evaluate 3 (.And (.BooleanLiteral false) (.Variable "z")) []
      = .error (.InterpSyntaxError "Cannot read from z before assignment.")
    ∧ evaluate 3 (.Or (.BooleanLiteral true) (.Variable "z")) []
      = .error (.InterpSyntaxError "Cannot read from z before assignment.") :=
  ⟨claim_C4.1 2 (.BooleanLiteral false) (.Variable "z") [] []
      (.InterpSyntaxError "Cannot read from z before assignment.") rfl rfl,
   claim_C4.2.1 2 (.BooleanLiteral true) (.Variable "z") [] []
      (.InterpSyntaxError "Cannot read from z before assignment.") rfl rfl⟩

/-- Claim C10: in `And`/`Or` both operands are evaluated before any type
checking: an error of the left operand propagates; an error of the right
operand propagates even when the left operand's type is not Boolean; the
And/Or type error arises only when both operand evaluations succeed (and
the types are unequal or non-Boolean). -/
theorem claim_C10 :
    (∀ (n : Nat) (l r : Expr) (s : State) (e : Err),
      evaluate n l s = .error e →
      evaluate (n + 1) (.And l r) s = .error e
      ∧ evaluate (n + 1) (.Or l r) s = .error e)
    ∧ (∀ (n : Nat) (l r : Expr) (s : State) (lv : Value) (lt : Ty) (s₁ : State) (e : Err),
      evaluate n l s = .ok (lv, lt, s₁) →
      evaluate n r s₁ = .error e →
      evaluate (n + 1) (.And l r) s = .error e
      ∧ evaluate (n + 1) (.Or l r) s = .error e)
    ∧ (∀ (n : Nat) (l r : Expr) (s : State) (lv : Value) (lt : Ty) (s₁ : State)
        (rv : Value) (rt : Ty) (s₂ : State),
      evaluate n l s = .ok (lv, lt, s₁) →
      evaluate n r s₁ = .ok (rv, rt, s₂) →
      (lt ≠ rt ∨ lt ≠ Ty.Boolean) →
      evaluate (n + 1) (.And l r) s
        = .error (.InterpTypeError "Cannot perform And on non-boolean")
      ∧ evaluate (n + 1) (.Or l r) s
        = .error (.InterpTypeError "Cannot perform Or on non-boolean")) := by
  refine ⟨?_, ?_, ?_⟩
  · intro n l r s e h
    have h' : evalC n (.expr l s) = .error e := h
    constructor
    · rw [eval_And_unfold]; simp [error_bind, h']
    · rw [eval_Or_unfold]; simp [error_bind, h']
  · intro n l r s lv lt s₁ e h₁ h₂
    have h₁' : evalC n (.expr l s) = .ok (lv, lt, s₁) := h₁
    have h₂' : evalC n (.expr r s₁) = .error e := h₂
    constructor
    · rw [eval_And_unfold]; simp [ok_bind, error_bind, h₁', h₂']
    · rw [eval_Or_unfold]; simp [ok_bind, error_bind, h₁', h₂']
  · intro n l r s lv lt s₁ rv rt s₂ h₁ h₂ hne
    have h₁' : evalC n (.expr l s) = .ok (lv, lt, s₁) := h₁
    have h₂' : evalC n (.expr r s₁) = .ok (rv, rt, s₂) := h₂
    constructor
    · rw [eval_And_unfold]; simp [ok_bind, h₁', h₂', hne]
    · rw [eval_Or_unfold]; simp [ok_bind, h₁', h₂', hne]

/-- Claim C10 witness: a division-by-zero error in the right operand
propagates although the left operand is an Integer (non-Boolean), for
both `And` and `Or`. -/
theorem claim_C10_witness :
    evaluate 4 (.And (.IntLiteral 5) (.Divide (.IntLiteral 1) (.IntLiteral 0))) []
      = .error (.InterpMathError "Division by zero")
    ∧ evaluate 4 (.Or (.IntLiteral 5) (.Divide (.IntLiteral 1) (.IntLiteral 0))) []
      = .error (.InterpMathError "Division by zero") :=
  claim_C10.2.1 3 (.IntLiteral 5) (.Divide (.IntLiteral 1) (.IntLiteral 0)) []
    (.int 5) .Integer [] (.InterpMathError "Division by zero") rfl rfl

theorem evalC_loop_unfold (n : Nat) (c b : Expr) (cv : Value) (s : State) :
    evalC (n + 1) (.loop c b cv s)
      = (if truthy cv then (do
          let (_, _, s₁) ← evalC n (.expr b s)
          let (cond_val₂, _, s₂) ← evalC n (.expr c s₁)
          evalC n (.loop c b cond_val₂ s₂))
        else .ok (.bool false, .Boolean, s)) := rfl

theorem loop_result :
    ∀ (n : Nat) (c b : Expr) (cv : Value) (s : State) (v : Value) (t : Ty) (s' : State),
      evalC n (.loop c b cv s) = .ok (v, t, s') → v = .bool false ∧ t = .Boolean := by
  intro n
  induction n with
  | zero =>
    intro c b cv s v t s' h
    exact Except.noConfusion h
  | succ n ih =>
    intro c b cv s v t s' h
    rw [evalC_loop_unfold] at h
    split at h
    · cases hb : evalC n (.expr b s) with
      | error e => simp [hb, error_bind] at h
      | ok r₁ =>
        obtain ⟨bv, bt, s₁⟩ := r₁
        cases hc : evalC n (.expr c s₁) with
        | error e => simp [hb, hc, ok_bind, error_bind] at h
        | ok r₂ =>
          obtain ⟨cv₂, ct₂, s₂⟩ := r₂
          simp only [hb, hc, ok_bind] at h
          exact ih c b cv₂ s₂ v t s' h
    · obtain ⟨h₁, h₂, h₃⟩ := by
        simpa only [Except.ok.injEq, Prod.mk.injEq] using h
      exact ⟨h₁.symm, h₂.symm⟩

/-- Claim C6: a terminating `While` always yields the boolean `false`
with type Boolean (never the body's value), together with the state
threaded through all iterations; `while (i < 3) do i = i + 1` from
`i = 0` terminates with `(false, Boolean)` and `i` bound to `3` in the
final state. -/
theorem claim_C6 :
    (∀ (n : Nat) (c b : Expr) (s : State) (v : Value) (t : Ty) (s' : State),
      evaluate n (.While c b) s = .ok (v, t, s') → v = .bool false ∧ t = .Boolean)
    ∧ (evaluate 30
        (.While (.Lt (.Variable "i") (.IntLiteral 3))
                (.Assign "i" (.Add (.Variable "i") (.IntLiteral 1))))
        [("i", .int 0, .Integer)]
      = .ok (.bool false, .Boolean,
          [("i", .int 3, .Integer), ("i", .int 2, .Integer),
           ("i", .int 1, .Integer), ("i", .int 0, .Integer)])
      ∧ get_value
          [("i", .int 3, .Integer), ("i", .int 2, .Integer),
           ("i", .int 1, .Integer), ("i", .int 0, .Integer)] "i"
        = some (.int 3, .Integer)) := by
  refine ⟨?_, rfl, rfl⟩
  intro n c b s v t s' h
  cases n with
  | zero => exact Except.noConfusion h
  | succ n =>
    rw [eval_While_unfold] at h
    cases hc : evalC n (.expr c s) with
    | error e => simp [hc, error_bind] at h
    | ok r =>
      obtain ⟨cv, ct, s₁⟩ := r
      simp only [hc, ok_bind] at h
      split at h
      · exact Except.noConfusion h
      · exact loop_result n c b cv s₁ v t s' h

/-- Claim C6 witness: a loop whose condition is immediately false
terminates with value `false` of type Boolean. -/
theorem claim_C6_witness :
    evaluate 5 (.While (.BooleanLiteral false) .Ren) [] = .ok (.bool false, .Boolean, [])
    ∧ (Value.bool false = Value.bool false ∧ Ty.Boolean = Ty.Boolean) :=
  ⟨rfl, claim_C6.1 5 (.BooleanLiteral false) .Ren [] (.bool false) .Boolean [] rfl⟩

/-- Claim C2 counterexample: the claim states that a non-Boolean
condition on any iteration fails with a type error; here the condition
is Boolean on the first evaluation and Integer `0` on the second, yet
the loop exits normally with `(false, Boolean)` and no error. -/
theorem claim_C2_counterexample :
    evaluate 20
      (.While (.If (.Variable "b") (.BooleanLiteral true) (.IntLiteral 0))
              (.Assign "b" (.BooleanLiteral false)))
      [("b", .bool true, .Boolean)]
      = .ok (.bool false, .Boolean,
          [("b", .bool false, .Boolean), ("b", .bool true, .Boolean)])
    ∧ evaluate 5 (.If (.Variable "b") (.BooleanLiteral true) (.IntLiteral 0))
        [("b", .bool false, .Boolean), ("b", .bool true, .Boolean)]
      = .ok (.int 0, .Integer,
          [("b", .bool false, .Boolean), ("b", .bool true, .Boolean)]) :=
  ⟨rfl, rfl⟩

/-- Claim C2 (amended): the `While` condition's type is checked only
before the first iteration — a non-Boolean type there fails with the
type error; on later iterations the re-evaluated condition's type is
not checked and only the value's truthiness is used, so a later
non-Boolean condition does not raise a type error (the loop exits
normally when that value is falsy). -/
theorem claim_C2 :
    (∀ (n : Nat) (c b : Expr) (s : State) (cv : Value) (ct : Ty) (s₁ : State),
      evaluate n c s = .ok (cv, ct, s₁) → ct ≠ .Boolean →
      evaluate (n + 1) (.While c b) s
        = .error (.InterpTypeError "While condition must be Boolean"))
    ∧ evaluate 20
        (.While (.If (.Variable "b") (.BooleanLiteral true) (.IntLiteral 0))
                (.Assign "b" (.BooleanLiteral false)))
        [("b", .bool true, .Boolean)]
      = .ok (.bool false, .Boolean,
          [("b", .bool false, .Boolean), ("b", .bool true, .Boolean)]) := by
  refine ⟨?_, rfl⟩
  intro n c b s cv ct s₁ h₁ hne
  have h₁' : evalC n (.expr c s) = .ok (cv, ct, s₁) := h₁
  rw [eval_While_unfold]
  simp [ok_bind, h₁', hne]

/-- Claim C2 witness: a `While` whose condition evaluates to Integer `1`
on the first evaluation fails with the type error. -/
theorem claim_C2_witness :
    evaluate 2 (.While (.IntLiteral 1) .Ren) []
      = .error (.InterpTypeError "While condition must be Boolean") :=
  claim_C2.1 1 (.IntLiteral 1) .Ren [] (.int 1) .Integer [] rfl (by decide)

theorem evalC_seq_cons (n : Nat) (e : Expr) (es : List Expr) (acc : Value × Ty × State) :
    evalC (n + 1) (.seq (e :: es) acc)
      = (evalC n (.expr e acc.2.2)) >>= fun r => evalC n (.seq es r) := rfl

theorem threadStates_cons (n : Nat) (e : Expr) (es : List Expr) (s : State) :
    threadStates (n + 1) (e :: es) s
      = (evalC n (.expr e s)) >>= fun r => threadStates n es r.2.2 := rfl

theorem seq_append :
    ∀ (es : List Expr) (m : Nat) (e : Expr) (acc : Value × Ty × State),
      evalC m (.seq (es ++ [e]) acc)
        = (threadStates m es acc.2.2) >>= fun s' => evaluate (m - es.length - 1) e s' := by
  intro es
  induction es with
  | nil =>
    intro m e acc
    cases m with
    | zero => rfl
    | succ m =>
      show (evalC m (.expr e acc.2.2) >>= fun r => evalC m (.seq [] r))
        = evalC m (.expr e acc.2.2)
      cases hx : evalC m (.expr e acc.2.2) with
      | error err => rfl
      | ok r => exact seq_nil m r
  | cons e₀ rest ih =>
    intro m e acc
    cases m with
    | zero => rfl
    | succ m =>
      rw [show (e₀ :: rest) ++ [e] = e₀ :: (rest ++ [e]) from rfl,
        evalC_seq_cons, threadStates_cons]
      simp only [List.length_cons]
      have harith : m + 1 - (rest.length + 1) - 1 = m - rest.length - 1 := by omega
      rw [harith]
      cases hx : evalC m (.expr e₀ acc.2.2) with
      | error err => simp [hx, error_bind]
      | ok r =>
        simp only [hx, ok_bind]
        exact ih m e r

/-- Claim C7: a non-empty `Sequence`/`Program` evaluates its
sub-expressions left-to-right, threading the state from each to the
next (`threadStates`), and its result is exactly the value, type and
state produced by the last sub-expression; an empty list yields the
absence value (`None`) with type Unit and the input state unchanged. -/
theorem claim_C7 :
    (∀ (n : Nat) (s : State),
      evaluate (n + 1) (.Sequence []) s = .ok (.pyNone, .Unit, s)
      ∧ evaluate (n + 1) (.Program []) s = .ok (.pyNone, .Unit, s))
    ∧ (∀ (n : Nat) (es : List Expr) (e : Expr) (s : State),
      evaluate (n + 1) (.Sequence (es ++ [e])) s
        = (threadStates n es s) >>= fun s' => evaluate (n - es.length - 1) e s')
    ∧ (∀ (n : Nat) (es : List Expr) (e : Expr) (s : State),
      evaluate (n + 1) (.Program (es ++ [e])) s
        = (threadStates n es s) >>= fun s' => evaluate (n - es.length - 1) e s')
    ∧ evaluate 10 (.Sequence [.IntLiteral 1, .IntLiteral 2, .IntLiteral 3]) []
        = .ok (.int 3, .Integer, [])
    ∧ evaluate 10 (.Sequence ([] : List Expr)) [] = .ok (.pyNone, .Unit, []) :=
  ⟨fun n s => ⟨seq_nil n (.pyNone, .Unit, s), seq_nil n (.pyNone, .Unit, s)⟩,
   fun n es e s => seq_append es n e (.pyNone, .Unit, s),
   fun n es e s => seq_append es n e (.pyNone, .Unit, s),
   rfl, rfl⟩

theorem evalC_preserves_typeConsistent :
    ∀ (n : Nat) (call : Call) (v : Value) (t : Ty) (s' : State),
      callStateOk call = true → evalC n call = .ok (v, t, s') → typeConsistent s' = true := by
  intro n
  induction n with
  | zero =>
    intro call v t s' hc h
    cases call with
    | expr e s => exact Except.noConfusion h
    | seq es acc =>
      cases es with
      | nil =>
        have h' : acc = (v, t, s') := Except.ok.inj h
        have hc' : typeConsistent acc.2.2 = true := hc
        rw [h'] at hc'
        exact hc'
      | cons e es => exact Except.noConfusion h
    | loop c b cv s => exact Except.noConfusion h
  | succ n ih =>
    intro call v t s' hc h
    cases call with
    | seq es acc =>
      cases es with
      | nil =>
        have h' : acc = (v, t, s') := Except.ok.inj h
        have hc' : typeConsistent acc.2.2 = true := hc
        rw [h'] at hc'
        exact hc'
      | cons e es =>
        rw [evalC_seq_cons] at h
        cases h₁ : evalC n (.expr e acc.2.2) with
        | error err => rw [h₁, error_bind] at h; exact Except.noConfusion h
        | ok r =>
          obtain ⟨rv, rt, rs⟩ := r
          have hrs : typeConsistent rs = true := ih (.expr e acc.2.2) rv rt rs hc h₁
          simp only [h₁, ok_bind] at h
          exact ih (.seq es (rv, rt, rs)) v t s' hrs h
    | loop c b cv s =>
      rw [evalC_loop_unfold] at h
      split at h
      · cases h₁ : evalC n (.expr b s) with
        | error err => rw [h₁, error_bind] at h; exact Except.noConfusion h
        | ok r₁ =>
          obtain ⟨bv, bt, s₁⟩ := r₁
          have hs₁ : typeConsistent s₁ = true := ih (.expr b s) bv bt s₁ hc h₁
          simp only [h₁, ok_bind] at h
          cases h₂ : evalC n (.expr c s₁) with
          | error err => rw [h₂, error_bind] at h; exact Except.noConfusion h
          | ok r₂ =>
            obtain ⟨cv₂, ct₂, s₂⟩ := r₂
            have hs₂ : typeConsistent s₂ = true := ih (.expr c s₁) cv₂ ct₂ s₂ hs₁ h₂
            simp only [h₂, ok_bind] at h
            exact ih (.loop c b cv₂ s₂) v t s' hs₂ h
      · simp only [Except.ok.injEq, Prod.mk.injEq] at h
        obtain ⟨-, -, h₃⟩ := h
        exact h₃ ▸ hc
    | expr e s =>
      cases e with
      | Ren =>
        simp only [evalC, Except.ok.injEq, Prod.mk.injEq] at h
        obtain ⟨-, -, h₃⟩ := h
        exact h₃ ▸ hc
      | IntLiteral l =>
        simp only [evalC, Except.ok.injEq, Prod.mk.injEq] at h
        obtain ⟨-, -, h₃⟩ := h
        exact h₃ ▸ hc
      | FloatingPointLiteral l =>
        simp only [evalC, Except.ok.injEq, Prod.mk.injEq] at h
        obtain ⟨-, -, h₃⟩ := h
        exact h₃ ▸ hc
      | StringLiteral l =>
        simp only [evalC, Except.ok.injEq, Prod.mk.injEq] at h
        obtain ⟨-, -, h₃⟩ := h
        exact h₃ ▸ hc
      | BooleanLiteral l =>
        simp only [evalC, Except.ok.injEq, Prod.mk.injEq] at h
        obtain ⟨-, -, h₃⟩ := h
        exact h₃ ▸ hc
      | Print to_print =>
        simp only [evalC] at h
        exact ih (.expr to_print s) v t s' hc h
      | Sequence exprs =>
        simp only [evalC] at h
        exact ih (.seq exprs (.pyNone, .Unit, s)) v t s' hc h
      | Program exprs =>
        simp only [evalC] at h
        exact ih (.seq exprs (.pyNone, .Unit, s)) v t s' hc h
      | Variable x =>
        simp only [evalC] at h
        cases hv : get_value s x with
        | none =>
          simp only [hv] at h
          exact Except.noConfusion h
        | some p =>
          obtain ⟨w, t₁⟩ := p
          simp only [hv, Except.ok.injEq, Prod.mk.injEq] at h
          obtain ⟨-, -, h₃⟩ := h
          exact h₃ ▸ hc
      | Assign x value =>
        simp only [evalC] at h
        cases h₁ : evalC n (.expr value s) with
        | error err => rw [h₁, error_bind] at h; exact Except.noConfusion h
        | ok r =>
          obtain ⟨v₀, t₀, s₁⟩ := r
          have hs₁ : typeConsistent s₁ = true := ih (.expr value s) v₀ t₀ s₁ hc h₁
          simp only [h₁, ok_bind] at h
          cases hv : get_value s₁ x with
          | none =>
            simp only [hv, Except.ok.injEq, Prod.mk.injEq] at h
            obtain ⟨-, -, h₃⟩ := h
            refine h₃ ▸ ?_
            simp [set_value, typeConsistent, hv, hs₁]
          | some p =>
            obtain ⟨w, t₁⟩ := p
            simp only [hv] at h
            split at h
            · exact Except.noConfusion h
            · rename_i hcond
              have ht : t₁ = t₀ := not_ne_iff.mp hcond
              simp only [Except.ok.injEq, Prod.mk.injEq] at h
              obtain ⟨-, -, h₃⟩ := h
              refine h₃ ▸ ?_
              simp [set_value, typeConsistent, hv, hs₁, ht]
      | Add left right =>
        simp only [evalC] at h
        cases h₁ : evalC n (.expr left s) with
        | error err => rw [h₁, error_bind] at h; exact Except.noConfusion h
        | ok r₁ =>
          obtain ⟨lv, lt, s₁⟩ := r₁
          have hs₁ : typeConsistent s₁ = true := ih (.expr left s) lv lt s₁ hc h₁
          simp only [h₁, ok_bind] at h
          cases h₂ : evalC n (.expr right s₁) with
          | error err => rw [h₂, error_bind] at h; exact Except.noConfusion h
          | ok r₂ =>
            obtain ⟨rv, rt, s₂⟩ := r₂
            have hs₂ : typeConsistent s₂ = true := ih (.expr right s₁) rv rt s₂ hs₁ h₂
            simp only [h₂, ok_bind] at h
            repeat' split at h
            all_goals first
              | exact Except.noConfusion h
              | (simp only [Except.ok.injEq, Prod.mk.injEq] at h
                 obtain ⟨-, -, h₃⟩ := h
                 exact h₃ ▸ hs₂)
      | Subtract left right =>
        simp only [evalC] at h
        cases h₁ : evalC n (.expr left s) with
        | error err => rw [h₁, error_bind] at h; exact Except.noConfusion h
        | ok r₁ =>
          obtain ⟨lv, lt, s₁⟩ := r₁
          have hs₁ : typeConsistent s₁ = true := ih (.expr left s) lv lt s₁ hc h₁
          simp only [h₁, ok_bind] at h
          cases h₂ : evalC n (.expr right s₁) with
          | error err => rw [h₂, error_bind] at h; exact Except.noConfusion h
          | ok r₂ =>
            obtain ⟨rv, rt, s₂⟩ := r₂
            have hs₂ : typeConsistent s₂ = true := ih (.expr right s₁) rv rt s₂ hs₁ h₂
            simp only [h₂, ok_bind] at h
            repeat' split at h
            all_goals first
              | exact Except.noConfusion h
              | (simp only [Except.ok.injEq, Prod.mk.injEq] at h
                 obtain ⟨-, -, h₃⟩ := h
                 exact h₃ ▸ hs₂)
      | Multiply left right =>
        simp only [evalC] at h
        cases h₁ : evalC n (.expr left s) with
        | error err => rw [h₁, error_bind] at h; exact Except.noConfusion h
        | ok r₁ =>
          obtain ⟨lv, lt, s₁⟩ := r₁
          have hs₁ : typeConsistent s₁ = true := ih (.expr left s) lv lt s₁ hc h₁
          simp only [h₁, ok_bind] at h
          cases h₂ : evalC n (.expr right s₁) with
          | error err => rw [h₂, error_bind] at h; exact Except.noConfusion h
          | ok r₂ =>
            obtain ⟨rv, rt, s₂⟩ := r₂
            have hs₂ : typeConsistent s₂ = true := ih (.expr right s₁) rv rt s₂ hs₁ h₂
            simp only [h₂, ok_bind] at h
            repeat' split at h
            all_goals first
              | exact Except.noConfusion h
              | (simp only [Except.ok.injEq, Prod.mk.injEq] at h
                 obtain ⟨-, -, h₃⟩ := h
                 exact h₃ ▸ hs₂)
      | Divide left right =>
        simp only [evalC] at h
        cases h₁ : evalC n (.expr left s) with
        | error err => rw [h₁, error_bind] at h; exact Except.noConfusion h
        | ok r₁ =>
          obtain ⟨lv, lt, s₁⟩ := r₁
          have hs₁ : typeConsistent s₁ = true := ih (.expr left s) lv lt s₁ hc h₁
          simp only [h₁, ok_bind] at h
          cases h₂ : evalC n (.expr right s₁) with
          | error err => rw [h₂, error_bind] at h; exact Except.noConfusion h
          | ok r₂ =>
            obtain ⟨rv, rt, s₂⟩ := r₂
            have hs₂ : typeConsistent s₂ = true := ih (.expr right s₁) rv rt s₂ hs₁ h₂
            simp only [h₂, ok_bind] at h
            repeat' split at h
            all_goals first
              | exact Except.noConfusion h
              | (simp only [Except.ok.injEq, Prod.mk.injEq] at h
                 obtain ⟨-, -, h₃⟩ := h
                 exact h₃ ▸ hs₂)
      | And left right =>
        simp only [evalC] at h
        cases h₁ : evalC n (.expr left s) with
        | error err => rw [h₁, error_bind] at h; exact Except.noConfusion h
        | ok r₁ =>
          obtain ⟨lv, lt, s₁⟩ := r₁
          have hs₁ : typeConsistent s₁ = true := ih (.expr left s) lv lt s₁ hc h₁
          simp only [h₁, ok_bind] at h
          cases h₂ : evalC n (.expr right s₁) with
          | error err => rw [h₂, error_bind] at h; exact Except.noConfusion h
          | ok r₂ =>
            obtain ⟨rv, rt, s₂⟩ := r₂
            have hs₂ : typeConsistent s₂ = true := ih (.expr right s₁) rv rt s₂ hs₁ h₂
            simp only [h₂, ok_bind] at h
            repeat' split at h
            all_goals first
              | exact Except.noConfusion h
              | (simp only [Except.ok.injEq, Prod.mk.injEq] at h
                 obtain ⟨-, -, h₃⟩ := h
                 exact h₃ ▸ hs₂)
      | Or left right =>
        simp only [evalC] at h
        cases h₁ : evalC n (.expr left s) with
        | error err => rw [h₁, error_bind] at h; exact Except.noConfusion h
        | ok r₁ =>
          obtain ⟨lv, lt, s₁⟩ := r₁
          have hs₁ : typeConsistent s₁ = true := ih (.expr left s) lv lt s₁ hc h₁
          simp only [h₁, ok_bind] at h
          cases h₂ : evalC n (.expr right s₁) with
          | error err => rw [h₂, error_bind] at h; exact Except.noConfusion h
          | ok r₂ =>
            obtain ⟨rv, rt, s₂⟩ := r₂
            have hs₂ : typeConsistent s₂ = true := ih (.expr right s₁) rv rt s₂ hs₁ h₂
            simp only [h₂, ok_bind] at h
            repeat' split at h
            all_goals first
              | exact Except.noConfusion h
              | (simp only [Except.ok.injEq, Prod.mk.injEq] at h
                 obtain ⟨-, -, h₃⟩ := h
                 exact h₃ ▸ hs₂)
      | Not expr =>
        simp only [evalC] at h
        cases h₁ : evalC n (.expr expr s) with
        | error err => rw [h₁, error_bind] at h; exact Except.noConfusion h
        | ok r₁ =>
          obtain ⟨v₁, t₁, s₁⟩ := r₁
          have hs₁ : typeConsistent s₁ = true := ih (.expr expr s) v₁ t₁ s₁ hc h₁
          simp only [h₁, ok_bind] at h
          split at h
          · exact Except.noConfusion h
          · simp only [Except.ok.injEq, Prod.mk.injEq] at h
            obtain ⟨-, -, h₃⟩ := h
            exact h₃ ▸ hs₁
      | If condition true_branch false_branch =>
        simp only [evalC] at h
        cases h₁ : evalC n (.expr condition s) with
        | error err => rw [h₁, error_bind] at h; exact Except.noConfusion h
        | ok r₁ =>
          obtain ⟨cv, ct, s₁⟩ := r₁
          have hs₁ : typeConsistent s₁ = true := ih (.expr condition s) cv ct s₁ hc h₁
          simp only [h₁, ok_bind] at h
          split at h
          · exact Except.noConfusion h
          · split at h
            · exact ih (.expr true_branch s₁) v t s' hs₁ h
            · exact ih (.expr false_branch s₁) v t s' hs₁ h
      | Lt left right =>
        simp only [evalC] at h
        cases h₁ : evalC n (.expr left s) with
        | error err => rw [h₁, error_bind] at h; exact Except.noConfusion h
        | ok r₁ =>
          obtain ⟨lv, lt, s₁⟩ := r₁
          have hs₁ : typeConsistent s₁ = true := ih (.expr left s) lv lt s₁ hc h₁
          simp only [h₁, ok_bind] at h
          cases h₂ : evalC n (.expr right s₁) with
          | error err => rw [h₂, error_bind] at h; exact Except.noConfusion h
          | ok r₂ =>
            obtain ⟨rv, rt, s₂⟩ := r₂
            have hs₂ : typeConsistent s₂ = true := ih (.expr right s₁) rv rt s₂ hs₁ h₂
            simp only [h₂, ok_bind] at h
            repeat' split at h
            all_goals first
              | exact Except.noConfusion h
              | (simp only [Except.ok.injEq, Prod.mk.injEq] at h
                 obtain ⟨-, -, h₃⟩ := h
                 exact h₃ ▸ hs₂)
      | Lte left right =>
        simp only [evalC] at h
        cases h₁ : evalC n (.expr left s) with
        | error err => rw [h₁, error_bind] at h; exact Except.noConfusion h
        | ok r₁ =>
          obtain ⟨lv, lt, s₁⟩ := r₁
          have hs₁ : typeConsistent s₁ = true := ih (.expr left s) lv lt s₁ hc h₁
          simp only [h₁, ok_bind] at h
          cases h₂ : evalC n (.expr right s₁) with
          | error err => rw [h₂, error_bind] at h; exact Except.noConfusion h
          | ok r₂ =>
            obtain ⟨rv, rt, s₂⟩ := r₂
            have hs₂ : typeConsistent s₂ = true := ih (.expr right s₁) rv rt s₂ hs₁ h₂
            simp only [h₂, ok_bind] at h
            repeat' split at h
            all_goals first
              | exact Except.noConfusion h
              | (simp only [Except.ok.injEq, Prod.mk.injEq] at h
                 obtain ⟨-, -, h₃⟩ := h
                 exact h₃ ▸ hs₂)
      | Gt left right =>
        simp only [evalC] at h
        cases h₁ : evalC n (.expr left s) with
        | error err => rw [h₁, error_bind] at h; exact Except.noConfusion h
        | ok r₁ =>
          obtain ⟨lv, lt, s₁⟩ := r₁
          have hs₁ : typeConsistent s₁ = true := ih (.expr left s) lv lt s₁ hc h₁
          simp only [h₁, ok_bind] at h
          cases h₂ : evalC n (.expr right s₁) with
          | error err => rw [h₂, error_bind] at h; exact Except.noConfusion h
          | ok r₂ =>
            obtain ⟨rv, rt, s₂⟩ := r₂
            have hs₂ : typeConsistent s₂ = true := ih (.expr right s₁) rv rt s₂ hs₁ h₂
            simp only [h₂, ok_bind] at h
            repeat' split at h
            all_goals first
              | exact Except.noConfusion h
              | (simp only [Except.ok.injEq, Prod.mk.injEq] at h
                 obtain ⟨-, -, h₃⟩ := h
                 exact h₃ ▸ hs₂)
      | Gte left right =>
        simp only [evalC] at h
        cases h₁ : evalC n (.expr left s) with
        | error err => rw [h₁, error_bind] at h; exact Except.noConfusion h
        | ok r₁ =>
          obtain ⟨lv, lt, s₁⟩ := r₁
          have hs₁ : typeConsistent s₁ = true := ih (.expr left s) lv lt s₁ hc h₁
          simp only [h₁, ok_bind] at h
          cases h₂ : evalC n (.expr right s₁) with
          | error err => rw [h₂, error_bind] at h; exact Except.noConfusion h
          | ok r₂ =>
            obtain ⟨rv, rt, s₂⟩ := r₂
            have hs₂ : typeConsistent s₂ = true := ih (.expr right s₁) rv rt s₂ hs₁ h₂
            simp only [h₂, ok_bind] at h
            repeat' split at h
            all_goals first
              | exact Except.noConfusion h
              | (simp only [Except.ok.injEq, Prod.mk.injEq] at h
                 obtain ⟨-, -, h₃⟩ := h
                 exact h₃ ▸ hs₂)
      | Eq left right =>
        simp only [evalC] at h
        cases h₁ : evalC n (.expr left s) with
        | error err => rw [h₁, error_bind] at h; exact Except.noConfusion h
        | ok r₁ =>
          obtain ⟨lv, lt, s₁⟩ := r₁
          have hs₁ : typeConsistent s₁ = true := ih (.expr left s) lv lt s₁ hc h₁
          simp only [h₁, ok_bind] at h
          cases h₂ : evalC n (.expr right s₁) with
          | error err => rw [h₂, error_bind] at h; exact Except.noConfusion h
          | ok r₂ =>
            obtain ⟨rv, rt, s₂⟩ := r₂
            have hs₂ : typeConsistent s₂ = true := ih (.expr right s₁) rv rt s₂ hs₁ h₂
            simp only [h₂, ok_bind] at h
            repeat' split at h
            all_goals first
              | exact Except.noConfusion h
              | (simp only [Except.ok.injEq, Prod.mk.injEq] at h
                 obtain ⟨-, -, h₃⟩ := h
                 exact h₃ ▸ hs₂)
      | Ne left right =>
        simp only [evalC] at h
        cases h₁ : evalC n (.expr left s) with
        | error err => rw [h₁, error_bind] at h; exact Except.noConfusion h
        | ok r₁ =>
          obtain ⟨lv, lt, s₁⟩ := r₁
          have hs₁ : typeConsistent s₁ = true := ih (.expr left s) lv lt s₁ hc h₁
          simp only [h₁, ok_bind] at h
          cases h₂ : evalC n (.expr right s₁) with
          | error err => rw [h₂, error_bind] at h; exact Except.noConfusion h
          | ok r₂ =>
            obtain ⟨rv, rt, s₂⟩ := r₂
            have hs₂ : typeConsistent s₂ = true := ih (.expr right s₁) rv rt s₂ hs₁ h₂
            simp only [h₂, ok_bind] at h
            repeat' split at h
            all_goals first
              | exact Except.noConfusion h
              | (simp only [Except.ok.injEq, Prod.mk.injEq] at h
                 obtain ⟨-, -, h₃⟩ := h
                 exact h₃ ▸ hs₂)
      | While condition body =>
        simp only [evalC] at h
        cases h₁ : evalC n (.expr condition s) with
        | error err => rw [h₁, error_bind] at h; exact Except.noConfusion h
        | ok r₁ =>
          obtain ⟨cv, ct, s₁⟩ := r₁
          have hs₁ : typeConsistent s₁ = true := ih (.expr condition s) cv ct s₁ hc h₁
          simp only [h₁, ok_bind] at h
          split at h
          · exact Except.noConfusion h
          · exact ih (.loop condition body cv s₁) v t s' hs₁ h

/-- Claim C5: evaluation preserves type stability — starting from a
type-consistent state (such as the empty one), every state an
evaluation produces is type-consistent, i.e. every later binding of a
name carries the same type tag as its earlier bindings; an `Assign`
whose right-hand value's type differs from the variable's established
type fails with the type error (the exception propagates, so no new
binding is created); `x = 1; x = 2` succeeds while `x = 1; x = "a"`
fails with the type error. -/
theorem claim_C5 :
    (∀ (n : Nat) (e : Expr) (s : State) (v : Value) (t : Ty) (s' : State),
      typeConsistent s = true → evaluate n e s = .ok (v, t, s') →
      typeConsistent s' = true)
    ∧ (∀ (n : Nat) (x : String) (e : Expr) (s : State) (v : Value) (t : Ty) (s₂ : State)
        (w : Value) (t₀ : Ty),
      evaluate n e s = .ok (v, t, s₂) →
      get_value s₂ x = some (w, t₀) →
      t₀ ≠ t →
      evaluate (n + 1) (.Assign x e) s
        = .error (.InterpTypeError ("Mismatched types for Assignment: Cannot assign "
            ++ tyStr t ++ " to " ++ tyStr t₀)))
    ∧ evaluate 10 (.Program [.Assign "x" (.IntLiteral 1), .Assign "x" (.IntLiteral 2)]) []
        = .ok (.int 2, .Integer, [("x", .int 2, .Integer), ("x", .int 1, .Integer)])
    ∧ evaluate 10 (.Program [.Assign "x" (.IntLiteral 1), .Assign "x" (.StringLiteral "a")]) []
        = .error (.InterpTypeError
            "Mismatched types for Assignment: Cannot assign String to Integer") := by
  refine ⟨?_, ?_, rfl, rfl⟩
  · intro n e s v t s' hs h
    exact evalC_preserves_typeConsistent n (.expr e s) v t s' hs h
  · intro n x e s v t s₂ w t₀ h₁ hv hne
    have h₁' : evalC n (.expr e s) = .ok (v, t, s₂) := h₁
    rw [eval_Assign_unfold]
    simp [ok_bind, h₁', hv, hne]

/-- Claim C5 witness: evaluating `y = 5` from the (type-consistent)
empty state yields a type-consistent state; assigning a String to the
Integer variable `y` fails with the type error. -/
theorem claim_C5_witness :
    typeConsistent [("y", .int 5, .Integer)] = true
    ∧ evaluate 3 (.Assign "y" (.StringLiteral "s")) [("y", .int 5, .Integer)]
      = .error (.InterpTypeError
          "Mismatched types for Assignment: Cannot assign String to Integer") :=
  ⟨claim_C5.1 3 (.Assign "y" (.IntLiteral 5)) [] (.int 5) .Integer
      [("y", .int 5, .Integer)] rfl rfl,
   claim_C5.2.1 2 "y" (.StringLiteral "s") [("y", .int 5, .Integer)] (.str "s") .String
      [("y", .int 5, .Integer)] (.int 5) .Integer rfl rfl (by decide)⟩

end Stimpl
